import Mathlib

/-!
Shallow embedding of the go-option repository (github.com/viocha/go-option).

We model:
* Go `error` values as the inductive `GoError`.  `fmt.Errorf` produces a
  leaf error carrying an identity tag (modelling pointer identity of the
  allocated error) and a message; `errors.Join` produces a `join` node
  over its (non-nil) children.
* `errors.Is` as `errIs`, which walks the unwrap tree exactly as Go does:
  first the `==` comparison against the target, then recursion into the
  children of a join node.
* Go panic payloads (`any` passed to `panic`) as `PanicVal`: either an
  `error` value or a non-error value (kept as its `%v` rendering).
* a computation that may panic as `Except PanicVal α`; a nilable Go
  pointer or nilable `error` variable as `GoPtr α := Option α`.

Reserved identity tags for leaf errors created by the library itself:
`0` is `util.ErrMust`, `1` marks errors freshly created by `fmt.Errorf`
inside the library, `2` is the runtime nil-pointer-dereference error.
User-supplied errors in witnesses use tags ≥ 3.
-/

/-- A nilable Go pointer (or nilable `error` variable): `none` is `nil`. -/
abbrev GoPtr (α : Type) := Option α

/-- Go `error` values, as created by `fmt.Errorf` (leaf, with an identity
tag modelling pointer identity and the formatted message) and
`errors.Join` over non-nil children. -/
inductive GoError : Type where
  | leaf (id : Nat) (msg : String)
  | join (errs : List GoError)

mutual

/-- Go `==` on error values: leaves (and joins) are equal when they are
the same allocation; we model allocation identity structurally, two
model errors being `==` iff they are the same model value. -/
def errEq : GoError → GoError → Bool
  | .leaf i m, .leaf j n => i == j && m == n
  | .join es, .join fs => errEqList es fs
  | _, _ => false

/-- Pointwise `errEq` on lists of errors. -/
def errEqList : List GoError → List GoError → Bool
  | [], [] => true
  | e :: es, f :: fs => errEq e f && errEqList es fs
  | _, _ => false

end

mutual

/-- `errors.Is(err, target)`: `err == target`, or `target` is found by
recursing into the children of a join node (`Unwrap() []error`). -/
def errIs : GoError → GoError → Bool
  | .leaf i m, t => errEq (.leaf i m) t
  | .join es, t => errEq (.join es) t || errIsAny es t

/-- `errors.Is` applied to each element of a join node's child list. -/
def errIsAny : List GoError → GoError → Bool
  | [], _ => false
  | e :: es, t => errIs e t || errIsAny es t

end

mutual

/-- `Error()` message of a `GoError`: a join concatenates the children's
messages with newlines, as Go's `joinError.Error` does. -/
def errMsg : GoError → String
  | .leaf _ m => m
  | .join es => String.intercalate "\n" (errMsgList es)

/-- Messages of a list of errors, in order. -/
def errMsgList : List GoError → List String
  | [] => []
  | e :: es => errMsg e :: errMsgList es

end

/-- A Go panic payload: either an `error` value, or a non-error value
kept as its `%v` rendering. -/
inductive PanicVal : Type where
  | err (e : GoError)
  | str (s : String)

/-- The runtime error raised by dereferencing a nil pointer.  Its payload
is an `error` (a `runtime.Error`), not a plain string. -/
def nilDeref : PanicVal :=
  .err (.leaf 2 "runtime error: invalid memory address or nil pointer dereference")

namespace util

/-- `util.ErrMust`, the reserved sentinel marking an expected panic. -/
def ErrMust : GoError := .leaf 0 "expected panic occurred"

/-- `util.ToError`: pass an error payload through unchanged, wrap any
other payload into a fresh string-backed error via `fmt.Errorf("%v", r)`. -/
def ToError : PanicVal → GoError
  | .err e => e
  | .str s => .leaf 1 s

/-- `util.DoSafe(f, errs...)`: run the callback; on normal return yield
`nil`.  On a panic with empty `errs`, convert the payload with `ToError`
and return it.  Otherwise return the payload itself when it is an error
matching some entry of `errs` through `errors.Is`, and re-raise the
panic unchanged when the payload is not an error or matches no entry.
The callback is modelled by its outcome `f : Except PanicVal Unit`. -/
def DoSafe (f : Except PanicVal Unit) (errs : List GoError) :
    Except PanicVal (GoPtr GoError) :=
  match f with
  | .ok _ => .ok none
  | .error r =>
    if errs.isEmpty then .ok (some (ToError r))
    else
      match r with
      | .err re =>
        if errs.any (fun e => errIs re e) then .ok (some re)
        else .error (.err re)
      | .str s => .error (.str s)

/-- The Go pattern `var x A; err := DoSafe(func() { x = ... }, errs...)`:
runs a result-producing body through `DoSafe` and yields either the
captured error or the captured result (panics re-raised as in `DoSafe`). -/
def DoSafeRun (errs : List GoError) (body : Except PanicVal A) :
    Except PanicVal (Except GoError A) :=
  match body with
  | .ok a => .ok (.ok a)
  | .error r =>
    if errs.isEmpty then .ok (.error (ToError r))
    else
      match r with
      | .err re =>
        if errs.any (fun e => errIs re e) then .ok (.error re)
        else .error (.err re)
      | .str s => .error (.str s)

/-- `util.WrapMsg(err, format, args...)`: join the error with a freshly
formatted message error. -/
def WrapMsg (err : GoError) (msg : String) : GoError :=
  .join [err, .leaf 1 msg]

/-- `util.WrapSub(sub, parent, format, args...)`: join
`WrapMsg(parent, msg)` with `sub`. -/
def WrapSub (sub : GoError) (parent : GoError) (msg : String) : GoError :=
  .join [WrapMsg parent msg, sub]

/-- `util.WrapMust(v)`: join `ErrMust` with `ToError v`. -/
def WrapMust (v : PanicVal) : GoError :=
  .join [ErrMust, ToError v]

/-- `util.MustGet(v, err)`: return `v` when `err` is nil, otherwise
panic with `WrapSub(err, ErrMust, "panic in MustGet")`. -/
def MustGet (v : T) (err : GoPtr GoError) : Except PanicVal T :=
  match err with
  | some e => .error (.err (WrapSub e ErrMust "panic in MustGet"))
  | none => .ok v

/-- `util.DoWithPanic(f)`: `DoSafe(f, ErrMust)`. -/
def DoWithPanic (f : Except PanicVal Unit) : Except PanicVal (GoPtr GoError) :=
  DoSafe f [ErrMust]

/-- The capture variant of `DoWithPanic`, for the Go pattern
`var x A; err := util.DoWithPanic(func() { x = ... })`. -/
def DoWithPanicRun (body : Except PanicVal A) :
    Except PanicVal (Except GoError A) :=
  DoSafeRun [ErrMust] body

end util

/-- Static and dynamic type information of a Go type `T`, as used by the
string renderings: `tname` is the name of `T` itself
(`reflect.TypeFor[T]()`), `dynName v` is the `%T` rendering of the value
`v` (the dynamic type of the value stored in `v`, which differs from
`tname` when `T` is an interface type), and `render v` is the `%v`
rendering of `v`. -/
class GoType (T : Type) where
  tname : String
  dynName : T → String
  render : T → String

/-- The name of the Go type `T` (`reflect.TypeFor[T]()` rendered). -/
def tnameOf (T : Type) [i : GoType T] : String := i.tname

/-- The zero value `*new(T)` of a Go type `T`. -/
class GoZero (T : Type) where
  zero : T

/-- `*new(T)` at type `T`. -/
def zeroOf (T : Type) [i : GoZero T] : T := i.zero

/-- `%v` rendering of a nilable Go `error` variable. -/
def errMsgPtr : GoPtr GoError → String
  | some e => errMsg e
  | none => "<nil>"

namespace option

/-- `Option[T]` from the root `option` package: a Go struct with a
pointer payload slot and a presence flag. -/
structure Option (T : Type) where
  val : GoPtr T
  exists' : Bool

/-- `option.Val(value)`: a present option boxing the value. -/
def Val (value : T) : Option T := ⟨some value, true⟩

/-- `option.Nul()`: an absent option with a nil payload pointer. -/
def Nul : Option T := ⟨none, false⟩

/-- `Option.IsVal()`. -/
def Option.IsVal (o : Option T) : Bool := o.exists'

/-- `Option.IsNul()`. -/
def Option.IsNul (o : Option T) : Bool := !o.exists'

/-- `Option.Get()`: panics with a fixed message when absent; dereferences
the payload pointer when present (a nil-pointer runtime panic when the
flag is set but the pointer is nil, a state no constructor produces). -/
def Option.Get (o : Option T) : Except PanicVal T :=
  if o.IsNul then .error (.str "called Option.Unwrap() on a None value")
  else
    match o.val with
    | some v => .ok v
    | none => .error nilDeref

/-- `Option.GetOr(value)`. -/
def Option.GetOr (o : Option T) (value : T) : Except PanicVal T :=
  if o.IsVal then o.Get else .ok value

/-- `Option.GetOrZero()`. -/
def Option.GetOrZero [GoZero T] (o : Option T) : Except PanicVal T :=
  if o.IsVal then o.Get else .ok (zeroOf T)

/-- `Option.String()`: `fmt.Sprintf("Some[%T](%v)", o.Get(), o.Get())`
when present (the type shown is the payload's dynamic type), otherwise
`None[<type>]()` with the name of `T` from `reflect.TypeFor[T]()`. -/
def Option.StringRepr [GoType T] (o : Option T) : Except PanicVal String :=
  if o.IsVal then do
    let a ← o.Get
    let b ← o.Get
    .ok ("Some[" ++ GoType.dynName a ++ "](" ++ GoType.render b ++ ")")
  else .ok ("None[" ++ tnameOf T ++ "]()")

/-- `Option.Try(f)`: on a present option runs `f` on the payload through
the panic-safe executor; a captured expected fault degrades the chain to
`Nul` (the fault itself is discarded), other faults re-raise. -/
def Option.Try (o : Option T) (f : T → Except PanicVal Unit) :
    Except PanicVal (Option T) :=
  if o.IsNul then .ok o
  else
    match util.DoWithPanic (o.Get >>= f) with
    | .ok none => .ok o
    | .ok (some _) => .ok Nul
    | .error p => .error p

/-- `Option.Catch(f)`: on an absent option runs `f` through the
panic-safe executor; a captured expected fault yields `Nul`, other
faults re-raise. -/
def Option.Catch (o : Option T) (f : Except PanicVal Unit) :
    Except PanicVal (Option T) :=
  if o.IsVal then .ok o
  else
    match util.DoWithPanic f with
    | .ok none => .ok o
    | .ok (some _) => .ok Nul
    | .error p => .error p

/-- `Option.Finally(f)`: always runs `f` through the panic-safe
executor; a captured expected fault yields `Nul`, other faults
re-raise. -/
def Option.Finally (o : Option T) (f : Except PanicVal Unit) :
    Except PanicVal (Option T) :=
  match util.DoWithPanic f with
  | .ok none => .ok o
  | .ok (some _) => .ok Nul
  | .error p => .error p

/-- Free function `option.Then(o, f)`: absent propagates without touching
`f`; present runs `f` on the payload through the executor, a captured
expected fault yielding `Nul`. -/
def Then (o : Option T) (f : T → Except PanicVal (Option U)) :
    Except PanicVal (Option U) :=
  if o.IsNul then .ok Nul
  else
    match util.DoWithPanicRun (o.Get >>= f) with
    | .ok (.ok result) => .ok result
    | .ok (.error _) => .ok Nul
    | .error p => .error p

/-- Free function `option.Map(o, f)`: absent propagates without touching
`f`; present runs `Val (f payload)` through the executor, a captured
expected fault yielding `Nul`. -/
def Map (o : Option T) (f : T → Except PanicVal U) :
    Except PanicVal (Option U) :=
  if o.IsNul then .ok Nul
  else
    match util.DoWithPanicRun (o.Get >>= fun v => (f v).map Val) with
    | .ok (.ok result) => .ok result
    | .ok (.error _) => .ok Nul
    | .error p => .error p

/-- Free function `option.MapOr(o, f, v)`: absent returns the default
without touching `f`; present runs `f` on the payload through the
executor, a captured expected fault yielding the default. -/
def MapOr (o : Option T) (f : T → Except PanicVal U) (v : U) :
    Except PanicVal U :=
  if o.IsNul then .ok v
  else
    match util.DoWithPanicRun (o.Get >>= f) with
    | .ok (.ok result) => .ok result
    | .ok (.error _) => .ok v
    | .error p => .error p

/-- Free function `option.MapOrFunc(o, okFn, defaultFn)`: absent calls
`defaultFn` without touching `okFn` (and outside the executor); present
runs `okFn` on the payload through the executor, a captured expected
fault falling back to `defaultFn`. -/
def MapOrFunc (o : Option T) (okFn : T → Except PanicVal U)
    (defaultFn : Except PanicVal U) : Except PanicVal U :=
  if o.IsNul then defaultFn
  else
    match util.DoWithPanicRun (o.Get >>= okFn) with
    | .ok (.ok result) => .ok result
    | .ok (.error _) => defaultFn
    | .error p => .error p

/-- `Option.IsSome()` from the `part_006` variant of the `option`
package. -/
def Option.IsSome (o : Option T) : Bool := o.exists'

/-- `Option.IsNone()` from the `part_006` variant of the `option`
package. -/
def Option.IsNone (o : Option T) : Bool := !o.exists'

/-- `option.Some(value)` from the `part_006` variant of the `option`
package (identical representation to `Val`). -/
def Some (value : T) : Option T := ⟨some value, true⟩

/-- `option.None()` from the `part_006` variant of the `option` package
(identical representation to `Nul`). -/
def None : Option T := ⟨none, false⟩

/-- `Option.Xor(b)` from the `part_006` variant: the present operand when
exactly one of the two is present, otherwise `None`. -/
def Option.Xor (o : Option T) (b : Option T) : Option T :=
  if o.exists' && !b.exists' then o
  else if !o.exists' && b.exists' then b
  else None

end option

namespace result

/-- `Result[T]` from the `result` package: a Go struct with a pointer
payload slot and a nilable error slot. -/
structure Result (T : Type) where
  val : GoPtr T
  err : GoPtr GoError

/-- The Go zero value `var r Result[T]`: both slots nil; obtained without
invoking any constructor. -/
def zeroValue : Result T := ⟨none, none⟩

/-- `result.Ok(value)`. -/
def Ok (value : T) : Result T := ⟨some value, none⟩

/-- `result.Err(err)`: panics with a fixed message when the cause is
nil; otherwise an Err-state result with a nil payload pointer. -/
def Err (err : GoPtr GoError) : Except PanicVal (Result T) :=
  match err with
  | none => .error (.str "Err() called with nil error")
  | some e => .ok ⟨none, some e⟩

/-- `result.From(val, err)`. -/
def From (val : T) (err : GoPtr GoError) : Except PanicVal (Result T) :=
  match err with
  | some e => Err (some e)
  | none => .ok (Ok val)

/-- `result.FromOption(o, err)`: `Ok(o.Get())` when the option is
present, otherwise `Err(err)`. -/
def FromOption (o : option.Option T) (err : GoPtr GoError) :
    Except PanicVal (Result T) :=
  if o.IsVal then (o.Get).map Ok
  else Err err

/-- `result.FromFunc(f)`: runs `result = Ok(f())` through the panic-safe
executor; a captured expected fault yields `Err` of that fault. -/
def FromFunc (f : Except PanicVal T) : Except PanicVal (Result T) :=
  match util.DoWithPanicRun (f.map Ok) with
  | .ok (.ok result) => .ok result
  | .ok (.error e) => Err (some e)
  | .error p => .error p

/-- `Result.IsOk()`: the error slot is nil. -/
def Result.IsOk (r : Result T) : Bool := r.err.isNone

/-- `Result.IsErr()`. -/
def Result.IsErr (r : Result T) : Bool := !r.IsOk

/-- `Result.Get()`: panics with a message embedding the cause when Err;
dereferences the payload pointer when Ok (a nil-pointer runtime panic on
the zero value, whose pointer is nil while its tag reads Ok). -/
def Result.Get (r : Result T) : Except PanicVal T :=
  if !r.IsOk then
    .error (.str ("called Result.Unwrap() on an Err value: " ++ errMsgPtr r.err))
  else
    match r.val with
    | some v => .ok v
    | none => .error nilDeref

/-- `Result.Val()`: project to an option on the value channel. -/
def Result.Val (r : Result T) : Except PanicVal (option.Option T) :=
  if r.IsOk then (r.Get).map option.Val
  else .ok option.Nul

/-- `Result.GetOr(v)`: delegates to `r.Val().GetOr(v)`. -/
def Result.GetOr (r : Result T) (v : T) : Except PanicVal T :=
  r.Val >>= fun o => o.GetOr v

/-- `Result.GetOrZero()`: delegates to `r.Val().GetOrZero()`. -/
def Result.GetOrZero [GoZero T] (r : Result T) : Except PanicVal T :=
  r.Val >>= fun o => o.GetOrZero

/-- `Result.String()`: `fmt.Sprintf("Ok[%T](%v)", r.Get(), r.Get())`
when Ok (the type shown is the payload's dynamic type), otherwise
`Err[<type>](<cause>)` with the name of `T` from `reflect.TypeFor[T]()`
and the cause's own message. -/
def Result.StringRepr [GoType T] (r : Result T) : Except PanicVal String :=
  if r.IsOk then do
    let a ← r.Get
    let b ← r.Get
    .ok ("Ok[" ++ GoType.dynName a ++ "](" ++ GoType.render b ++ ")")
  else .ok ("Err[" ++ tnameOf T ++ "](" ++ errMsgPtr r.err ++ ")")

/-- `Result.Try(f)`: on an Ok result runs `f` on the payload through the
panic-safe executor; a captured expected fault degrades the chain to
`Err` of that fault, other faults re-raise. -/
def Result.Try (r : Result T) (f : T → Except PanicVal Unit) :
    Except PanicVal (Result T) :=
  if r.IsErr then .ok r
  else
    match util.DoWithPanic (r.Get >>= f) with
    | .ok none => .ok r
    | .ok (some e) => Err (some e)
    | .error p => .error p

/-- `Result.Catch(f)`: on an Err result runs `f` on the cause through
the panic-safe executor; a captured expected fault yields `Err` of that
fault, other faults re-raise. -/
def Result.Catch (r : Result T) (f : GoPtr GoError → Except PanicVal Unit) :
    Except PanicVal (Result T) :=
  if r.IsOk then .ok r
  else
    match util.DoWithPanic (f r.err) with
    | .ok none => .ok r
    | .ok (some e) => Err (some e)
    | .error p => .error p

/-- `Result.Finally(f)`: always runs `f` through the panic-safe
executor; a captured expected fault yields `Err` of that fault, other
faults re-raise. -/
def Result.Finally (r : Result T) (f : Except PanicVal Unit) :
    Except PanicVal (Result T) :=
  match util.DoWithPanic f with
  | .ok none => .ok r
  | .ok (some e) => Err (some e)
  | .error p => .error p

/-- `Result.Else(f)`: on an Err result runs `newResult = f(r.err)`
through the panic-safe executor; a captured expected fault yields `Err`
of that fault. -/
def Result.Else (r : Result T)
    (f : GoPtr GoError → Except PanicVal (Result T)) :
    Except PanicVal (Result T) :=
  if r.IsOk then .ok r
  else
    match util.DoWithPanicRun (f r.err) with
    | .ok (.ok newResult) => .ok newResult
    | .ok (.error e) => Err (some e)
    | .error p => .error p

/-- `Result.ElseMap(f)`: on an Err result runs `newResult = Ok(f(r.err))`
through the panic-safe executor; a captured expected fault yields `Err`
of that fault. -/
def Result.ElseMap (r : Result T) (f : GoPtr GoError → Except PanicVal T) :
    Except PanicVal (Result T) :=
  if r.IsOk then .ok r
  else
    match util.DoWithPanicRun ((f r.err).map Ok) with
    | .ok (.ok newResult) => .ok newResult
    | .ok (.error e) => Err (some e)
    | .error p => .error p

/-- Free function `result.Then(r, f)`: Err propagates the cause without
touching `f`; Ok runs `newResult = f(r.Get())` through the executor. -/
def Then (r : Result T) (f : T → Except PanicVal (Result U)) :
    Except PanicVal (Result U) :=
  if r.IsErr then Err r.err
  else
    match util.DoWithPanicRun (r.Get >>= f) with
    | .ok (.ok newResult) => .ok newResult
    | .ok (.error e) => Err (some e)
    | .error p => .error p

/-- Free function `result.Map(r, f)`: Err propagates the cause without
touching `f`; Ok runs `newResult = Ok(f(r.Get()))` through the
executor. -/
def Map (r : Result T) (f : T → Except PanicVal U) :
    Except PanicVal (Result U) :=
  if r.IsErr then Err r.err
  else
    match util.DoWithPanicRun (r.Get >>= fun v => (f v).map Ok) with
    | .ok (.ok newResult) => .ok newResult
    | .ok (.error e) => Err (some e)
    | .error p => .error p

end result

/-- A value of the Go interface type `interface \x7b\x7d` (`any`): the
dynamic type of the stored value travels with the value, so the `%T`
rendering of a payload differs from the name of the element type. -/
inductive GoAny : Type where
  | int (n : Int)
  | str (s : String)

instance : GoType GoAny where
  tname := "interface \x7b\x7d"
  dynName v := match v with | .int _ => "int" | .str _ => "string"
  render v := match v with | .int n => toString n | .str s => s

instance : GoType Int where
  tname := "int"
  dynName _ := "int"
  render n := toString n

instance : GoZero Int where
  zero := 0

mutual

/-- `errEq` is reflexive: a Go error value is `==` to itself. -/
theorem errEq_refl : (e : GoError) → errEq e e = true
  | .leaf i m => by simp [errEq]
  | .join es => by simp [errEq, errEqList_refl es]

/-- `errEqList` is reflexive. -/
theorem errEqList_refl : (es : List GoError) → errEqList es es = true
  | [] => rfl
  | e :: es => by simp [errEqList, errEq_refl e, errEqList_refl es]

end

/-- `errors.Is(e, e)` holds for every error value. -/
theorem errIs_self (e : GoError) : errIs e e = true := by
  cases e with
  | leaf i m => simp [errIs, errEq]
  | join es => simp [errIs, errEq, errEqList_refl]

/-- Unfolding equation of `errIs` at a join node. -/
theorem errIs_join (es : List GoError) (t : GoError) :
    errIs (.join es) t = (errEq (.join es) t || errIsAny es t) := rfl

/-- Unfolding equation of `errIsAny` at a cons cell. -/
theorem errIsAny_cons (e : GoError) (es : List GoError) (t : GoError) :
    errIsAny (e :: es) t = (errIs e t || errIsAny es t) := rfl

/-- Unfolding equation of `errIsAny` at the empty list. -/
theorem errIsAny_nil (t : GoError) : errIsAny [] t = false := rfl

/-- Bind of a successful step of a possibly-panicking computation. -/
theorem exceptBind_ok {α β : Type} (a : α) (f : α → Except PanicVal β) :
    (Except.ok a >>= f) = f a := rfl

/-- Bind of a panicking step of a possibly-panicking computation. -/
theorem exceptBind_error {α β : Type} (p : PanicVal)
    (f : α → Except PanicVal β) :
    ((Except.error p : Except PanicVal α) >>= f) = Except.error p := rfl

/-- C1: `DoSafe(f, errs...)` returns nil when the callback returns
normally; on a panic with an empty expected list it returns the payload
converted to an error (unchanged when already an error, otherwise a
string-backed error); on a panic with a non-empty expected list it
returns the payload exactly when that payload is an error matching some
entry through `errors.Is`, and re-raises the panic unchanged when the
payload is not an error or matches no entry. -/
theorem C1_DoSafe :
    (∀ errs : List GoError, util.DoSafe (.ok ()) errs = .ok none) ∧
    (∀ e : GoError, util.DoSafe (.error (.err e)) [] = .ok (some e)) ∧
    (∀ s : String,
      util.DoSafe (.error (.str s)) [] = .ok (some (GoError.leaf 1 s))) ∧
    (∀ (e : GoError) (errs : List GoError), errs.isEmpty = false →
      (errs.any (fun x => errIs e x) = true →
        util.DoSafe (.error (.err e)) errs = .ok (some e)) ∧
      (errs.any (fun x => errIs e x) = false →
        util.DoSafe (.error (.err e)) errs = .error (.err e))) ∧
    (∀ (s : String) (errs : List GoError), errs.isEmpty = false →
      util.DoSafe (.error (.str s)) errs = .error (.str s)) := by
  refine ⟨fun _ => rfl, fun _ => rfl, fun _ => rfl, ?_, ?_⟩
  · intro e errs hne
    exact ⟨fun hm => by simp [util.DoSafe, hne, hm],
           fun hm => by simp [util.DoSafe, hne, hm]⟩
  · intro s errs hne
    simp [util.DoSafe, hne]

/-- Witness for C1 at concrete inputs: an expected-fault list holding
`ErrMust`, exercised with a matching error payload, an unrelated error
payload, and a non-error payload. -/
theorem C1_DoSafe_witness :
    (util.DoSafe (.error (.err util.ErrMust)) [util.ErrMust] =
      .ok (some util.ErrMust)) ∧
    (util.DoSafe (.error (.err (.leaf 3 "boom"))) [util.ErrMust] =
      .error (.err (.leaf 3 "boom"))) ∧
    (util.DoSafe (.error (.str "boom")) [util.ErrMust] =
      .error (.str "boom")) :=
  ⟨(C1_DoSafe.2.2.2.1 util.ErrMust [util.ErrMust] rfl).1 (by decide),
   (C1_DoSafe.2.2.2.1 (.leaf 3 "boom") [util.ErrMust] rfl).2 (by decide),
   C1_DoSafe.2.2.2.2 "boom" [util.ErrMust] rfl⟩

/-- C3: `MustGet(v, nil)` returns `v`; for a non-nil cause `e`,
`MustGet(v, e)` panics with an error payload whose chain, through
`errors.Is`, contains both the reserved `ErrMust` sentinel and the
original cause `e`. -/
theorem C3_MustGet {T : Type} :
    (∀ v : T, util.MustGet v none = .ok v) ∧
    (∀ (v : T) (e : GoError),
      util.MustGet v (some e) =
        .error (.err (util.WrapSub e util.ErrMust "panic in MustGet")) ∧
      errIs (util.WrapSub e util.ErrMust "panic in MustGet") util.ErrMust =
        true ∧
      errIs (util.WrapSub e util.ErrMust "panic in MustGet") e = true) := by
  constructor
  · exact fun _ => rfl
  · intro v e
    have h1 : util.MustGet v (some e) =
        .error (.err (util.WrapSub e util.ErrMust "panic in MustGet")) := rfl
    have h2 : errIs (util.WrapSub e util.ErrMust "panic in MustGet")
        util.ErrMust = true := by
      simp [util.WrapSub, util.WrapMsg, errIs_join, errIsAny_cons,
        errIsAny_nil, errIs_self]
    have h3 : errIs (util.WrapSub e util.ErrMust "panic in MustGet") e =
        true := by
      simp [util.WrapSub, util.WrapMsg, errIs_join, errIsAny_cons,
        errIsAny_nil, errIs_self]
    exact ⟨h1, h2, h3⟩

/-- C7: `Xor` on the `part_006` option variant follows the four-case
truth table and is symmetric in its operands. -/
theorem C7_Xor {T : Type} (a b : option.Option T) :
    (a.IsSome = true → b.IsNone = true → a.Xor b = a) ∧
    (a.IsNone = true → b.IsSome = true → a.Xor b = b) ∧
    (a.IsSome = true → b.IsSome = true → a.Xor b = option.None) ∧
    (a.IsNone = true → b.IsNone = true → a.Xor b = option.None) ∧
    a.Xor b = b.Xor a := by
  obtain ⟨av, ae⟩ := a
  obtain ⟨bv, be⟩ := b
  cases ae <;> cases be <;>
    simp [option.Option.IsSome, option.Option.IsNone, option.Option.Xor,
      option.None]

/-- Witness for C7: the truth table at concrete options. -/
theorem C7_Xor_witness :
    ((option.Some (1 : Int)).Xor option.None = option.Some 1) ∧
    ((option.None : option.Option Int).Xor (option.Some 2) =
      option.Some 2) ∧
    ((option.Some (1 : Int)).Xor (option.Some 2) = option.None) ∧
    ((option.None : option.Option Int).Xor option.None = option.None) :=
  ⟨(C7_Xor (option.Some 1) option.None).1 rfl rfl,
   (C7_Xor option.None (option.Some 2)).2.1 rfl rfl,
   (C7_Xor (option.Some 1) (option.Some 2)).2.2.1 rfl rfl,
   (C7_Xor option.None option.None).2.2.2.1 rfl rfl⟩

/-- C2: each Result chain combinator (`Try`, `Catch`, `Finally`, `Else`,
`ElseMap`) runs its callback through the panic-safe executor configured
with `ErrMust`: a callback fault that is an error matching `ErrMust`
through `errors.Is` degrades the chain to `Err` carrying that error
instead of propagating the panic; when the callback does not fault,
`Try` returns the receiver unchanged on Ok and `Catch` returns it
unchanged on Err. -/
theorem C2_chain_executor {T : Type} :
    (∀ (v : T) (f : T → Except PanicVal Unit) (p : GoError),
      f v = .error (.err p) → errIs p util.ErrMust = true →
      (result.Ok v).Try f = .ok ⟨none, some p⟩) ∧
    (∀ (v : T) (f : T → Except PanicVal Unit),
      f v = .ok () → (result.Ok v).Try f = .ok (result.Ok v)) ∧
    (∀ (r : result.Result T) (e : GoError)
      (f : GoPtr GoError → Except PanicVal Unit) (p : GoError),
      r.err = some e → f r.err = .error (.err p) →
      errIs p util.ErrMust = true → r.Catch f = .ok ⟨none, some p⟩) ∧
    (∀ (r : result.Result T) (e : GoError)
      (f : GoPtr GoError → Except PanicVal Unit),
      r.err = some e → f r.err = .ok () → r.Catch f = .ok r) ∧
    (∀ (r : result.Result T) (f : Except PanicVal Unit) (p : GoError),
      f = .error (.err p) → errIs p util.ErrMust = true →
      r.Finally f = .ok ⟨none, some p⟩) ∧
    (∀ (r : result.Result T) (e : GoError)
      (f : GoPtr GoError → Except PanicVal (result.Result T)) (p : GoError),
      r.err = some e → f r.err = .error (.err p) →
      errIs p util.ErrMust = true → r.Else f = .ok ⟨none, some p⟩) ∧
    (∀ (r : result.Result T) (e : GoError)
      (f : GoPtr GoError → Except PanicVal T) (p : GoError),
      r.err = some e → f r.err = .error (.err p) →
      errIs p util.ErrMust = true → r.ElseMap f = .ok ⟨none, some p⟩) := by
  refine ⟨?_, ?_, ?_, ?_, ?_, ?_, ?_⟩
  · intro v f p hf hp
    simp [result.Result.Try, result.Result.IsErr, result.Result.IsOk,
      result.Ok, result.Result.Get, util.DoWithPanic, util.DoSafe,
      result.Err, exceptBind_ok, hf, hp]
  · intro v f hf
    simp [result.Result.Try, result.Result.IsErr, result.Result.IsOk,
      result.Ok, result.Result.Get, util.DoWithPanic, util.DoSafe,
      result.Err, exceptBind_ok, hf]
  · intro r e f p hre hf hp
    rw [hre] at hf
    simp [result.Result.Catch, result.Result.IsOk, hre, util.DoWithPanic,
      util.DoSafe, result.Err, hf, hp]
  · intro r e f hre hf
    rw [hre] at hf
    simp [result.Result.Catch, result.Result.IsOk, hre, util.DoWithPanic,
      util.DoSafe, hf]
  · intro r f p hf hp
    simp [result.Result.Finally, util.DoWithPanic, util.DoSafe, result.Err,
      hf, hp]
  · intro r e f p hre hf hp
    rw [hre] at hf
    simp [result.Result.Else, result.Result.IsOk, hre, util.DoWithPanicRun,
      util.DoSafeRun, result.Err, hf, hp]
  · intro r e f p hre hf hp
    rw [hre] at hf
    simp [result.Result.ElseMap, result.Result.IsOk, hre,
      util.DoWithPanicRun, util.DoSafeRun, result.Err, Except.map, hf, hp]

/-- Witness for C2: each combinator exercised at concrete inputs — a
callback panicking with `ErrMust` itself degrades the chain to Err of
that error, and fault-free callbacks leave the receiver unchanged. -/
theorem C2_chain_executor_witness :
    ((result.Ok (1 : Int)).Try (fun _ => .error (.err util.ErrMust)) =
      .ok ⟨none, some util.ErrMust⟩) ∧
    ((result.Ok (1 : Int)).Try (fun _ => .ok ()) = .ok (result.Ok 1)) ∧
    (result.Result.Catch (⟨none, some (.leaf 3 "e")⟩ : result.Result Int)
      (fun _ => .error (.err util.ErrMust)) =
      .ok ⟨none, some util.ErrMust⟩) ∧
    (result.Result.Catch (⟨none, some (.leaf 3 "e")⟩ : result.Result Int)
      (fun _ => .ok ()) = .ok ⟨none, some (.leaf 3 "e")⟩) ∧
    ((result.Ok (1 : Int)).Finally (.error (.err util.ErrMust)) =
      .ok ⟨none, some util.ErrMust⟩) ∧
    (result.Result.Else (⟨none, some (.leaf 3 "e")⟩ : result.Result Int)
      (fun _ => .error (.err util.ErrMust)) =
      .ok ⟨none, some util.ErrMust⟩) ∧
    (result.Result.ElseMap (⟨none, some (.leaf 3 "e")⟩ : result.Result Int)
      (fun _ => .error (.err util.ErrMust)) =
      .ok ⟨none, some util.ErrMust⟩) :=
  ⟨C2_chain_executor.1 1 (fun _ => .error (.err util.ErrMust)) util.ErrMust
      rfl (by decide),
   C2_chain_executor.2.1 1 (fun _ => .ok ()) rfl,
   C2_chain_executor.2.2.1 ⟨none, some (.leaf 3 "e")⟩ (.leaf 3 "e")
      (fun _ => .error (.err util.ErrMust)) util.ErrMust rfl rfl (by decide),
   C2_chain_executor.2.2.2.1 ⟨none, some (.leaf 3 "e")⟩ (.leaf 3 "e")
      (fun _ => .ok ()) rfl rfl,
   C2_chain_executor.2.2.2.2.1 (result.Ok 1) (.error (.err util.ErrMust))
      util.ErrMust rfl (by decide),
   C2_chain_executor.2.2.2.2.2.1 ⟨none, some (.leaf 3 "e")⟩ (.leaf 3 "e")
      (fun _ => .error (.err util.ErrMust)) util.ErrMust rfl rfl (by decide),
   C2_chain_executor.2.2.2.2.2.2 ⟨none, some (.leaf 3 "e")⟩ (.leaf 3 "e")
      (fun _ => .error (.err util.ErrMust)) util.ErrMust rfl rfl (by decide)⟩

/-- C4 counterexample: an Option chain combinator silently discards a
captured fault.  Two callbacks panicking with two different
`ErrMust`-matching errors both degrade `Try` to the same `Nul`, which
carries no error component at all — the fault is neither returned as a
value nor re-raised. -/
theorem C4_counterexample :
    option.Option.Try (option.Val (0 : Int))
      (fun _ => .error (.err (GoError.join [util.ErrMust, .leaf 3 "a"]))) =
      .ok option.Nul ∧
    option.Option.Try (option.Val (0 : Int))
      (fun _ => .error (.err (GoError.join [util.ErrMust, .leaf 4 "b"]))) =
      .ok option.Nul ∧
    GoError.join [util.ErrMust, .leaf 3 "a"] ≠
      GoError.join [util.ErrMust, .leaf 4 "b"] ∧
    (option.Nul : option.Option Int).val = none := by
  refine ⟨rfl, rfl, ?_, rfl⟩
  simp

/-- C4 (amended): Result chain combinators return every captured fault
as an Err value and re-raise unexpected faults; Option chain combinators
and lifts re-raise unexpected faults (non-error payloads or errors not
matching `ErrMust`) but absorb an `ErrMust`-matching fault by degrading
to `Nul`, discarding the captured error content. -/
theorem C4_faults_amended {T U : Type} :
    (∀ (v : T) (f : T → Except PanicVal Unit) (p : GoError),
      f v = .error (.err p) → errIs p util.ErrMust = true →
      (option.Val v).Try f = .ok option.Nul) ∧
    (∀ (v : T) (f : T → Except PanicVal Unit) (p : GoError),
      f v = .error (.err p) → errIs p util.ErrMust = false →
      (option.Val v).Try f = .error (.err p)) ∧
    (∀ (v : T) (f : T → Except PanicVal Unit) (s : String),
      f v = .error (.str s) → (option.Val v).Try f = .error (.str s)) ∧
    (∀ (f : Except PanicVal Unit) (p : GoError),
      f = .error (.err p) → errIs p util.ErrMust = true →
      option.Option.Catch (option.Nul : option.Option T) f =
        .ok option.Nul) ∧
    (∀ (f : Except PanicVal Unit) (p : GoError),
      f = .error (.err p) → errIs p util.ErrMust = false →
      option.Option.Catch (option.Nul : option.Option T) f =
        .error (.err p)) ∧
    (∀ (o : option.Option T) (f : Except PanicVal Unit) (p : GoError),
      f = .error (.err p) → errIs p util.ErrMust = true →
      o.Finally f = .ok option.Nul) ∧
    (∀ (o : option.Option T) (f : Except PanicVal Unit) (p : GoError),
      f = .error (.err p) → errIs p util.ErrMust = false →
      o.Finally f = .error (.err p)) ∧
    (∀ (v : T) (f : T → Except PanicVal U) (p : GoError),
      f v = .error (.err p) → errIs p util.ErrMust = true →
      option.Map (option.Val v) f = .ok option.Nul) ∧
    (∀ (v : T) (f : T → Except PanicVal (option.Option U)) (p : GoError),
      f v = .error (.err p) → errIs p util.ErrMust = true →
      option.Then (option.Val v) f = .ok option.Nul) ∧
    (∀ (v : T) (f : T → Except PanicVal Unit) (p : GoError),
      f v = .error (.err p) → errIs p util.ErrMust = true →
      (result.Ok v).Try f = .ok ⟨none, some p⟩) ∧
    (∀ (v : T) (f : T → Except PanicVal Unit) (p : GoError),
      f v = .error (.err p) → errIs p util.ErrMust = false →
      (result.Ok v).Try f = .error (.err p)) := by
  refine ⟨?_, ?_, ?_, ?_, ?_, ?_, ?_, ?_, ?_, ?_, ?_⟩
  · intro v f p hf hp
    simp [option.Option.Try, option.Option.IsNul, option.Option.IsVal,
      option.Val, option.Option.Get, util.DoWithPanic, util.DoSafe,
      exceptBind_ok, hf, hp]
  · intro v f p hf hp
    simp [option.Option.Try, option.Option.IsNul, option.Option.IsVal,
      option.Val, option.Option.Get, util.DoWithPanic, util.DoSafe,
      exceptBind_ok, hf, hp]
  · intro v f s hf
    simp [option.Option.Try, option.Option.IsNul, option.Option.IsVal,
      option.Val, option.Option.Get, util.DoWithPanic, util.DoSafe,
      exceptBind_ok, hf]
  · intro f p hf hp
    simp [option.Option.Catch, option.Option.IsVal, option.Nul,
      util.DoWithPanic, util.DoSafe, hf, hp]
  · intro f p hf hp
    simp [option.Option.Catch, option.Option.IsVal, option.Nul,
      util.DoWithPanic, util.DoSafe, hf, hp]
  · intro o f p hf hp
    simp [option.Option.Finally, util.DoWithPanic, util.DoSafe, hf, hp]
  · intro o f p hf hp
    simp [option.Option.Finally, util.DoWithPanic, util.DoSafe, hf, hp]
  · intro v f p hf hp
    simp [option.Map, option.Option.IsNul, option.Option.IsVal, option.Val,
      option.Option.Get, util.DoWithPanicRun, util.DoSafeRun,
      exceptBind_ok, Except.map, hf, hp]
  · intro v f p hf hp
    simp [option.Then, option.Option.IsNul, option.Option.IsVal, option.Val,
      option.Option.Get, util.DoWithPanicRun, util.DoSafeRun,
      exceptBind_ok, hf, hp]
  · intro v f p hf hp
    simp [result.Result.Try, result.Result.IsErr, result.Result.IsOk,
      result.Ok, result.Result.Get, util.DoWithPanic, util.DoSafe,
      result.Err, exceptBind_ok, hf, hp]
  · intro v f p hf hp
    simp [result.Result.Try, result.Result.IsErr, result.Result.IsOk,
      result.Ok, result.Result.Get, util.DoWithPanic, util.DoSafe,
      result.Err, exceptBind_ok, hf, hp]

/-- Witness for C4 (amended): the absorb/re-raise behavior of `Try`,
`Catch`, `Finally`, `Map`, `Then` at concrete inputs. -/
theorem C4_faults_amended_witness :
    (option.Option.Try (option.Val (1 : Int))
      (fun _ => .error (.err util.ErrMust)) = .ok option.Nul) ∧
    (option.Option.Try (option.Val (1 : Int))
      (fun _ => .error (.err (.leaf 3 "x"))) =
      .error (.err (.leaf 3 "x"))) ∧
    (option.Option.Try (option.Val (1 : Int))
      (fun _ => .error (.str "s")) = .error (.str "s")) ∧
    (option.Option.Catch (option.Nul : option.Option Int)
      (.error (.err util.ErrMust)) = .ok option.Nul) ∧
    (option.Option.Catch (option.Nul : option.Option Int)
      (.error (.err (.leaf 3 "x"))) = .error (.err (.leaf 3 "x"))) ∧
    (option.Option.Finally (option.Val (1 : Int))
      (.error (.err util.ErrMust)) = .ok option.Nul) ∧
    (option.Option.Finally (option.Val (1 : Int))
      (.error (.err (.leaf 3 "x"))) = .error (.err (.leaf 3 "x"))) ∧
    (option.Map (option.Val (1 : Int))
      (fun _ => (.error (.err util.ErrMust) : Except PanicVal Int)) =
      .ok option.Nul) ∧
    (option.Then (option.Val (1 : Int))
      (fun _ =>
        (.error (.err util.ErrMust) :
          Except PanicVal (option.Option Int))) = .ok option.Nul) ∧
    ((result.Ok (1 : Int)).Try (fun _ => .error (.err util.ErrMust)) =
      .ok ⟨none, some util.ErrMust⟩) ∧
    ((result.Ok (1 : Int)).Try (fun _ => .error (.err (.leaf 3 "x"))) =
      .error (.err (.leaf 3 "x"))) :=
  ⟨(@C4_faults_amended Int Int).1 1 (fun _ => .error (.err util.ErrMust)) util.ErrMust
      rfl (by decide),
   (@C4_faults_amended Int Int).2.1 1 (fun _ => .error (.err (.leaf 3 "x")))
      (.leaf 3 "x") rfl (by decide),
   (@C4_faults_amended Int Int).2.2.1 1 (fun _ => .error (.str "s")) "s" rfl,
   (@C4_faults_amended Int Int).2.2.2.1 (.error (.err util.ErrMust)) util.ErrMust rfl
      (by decide),
   (@C4_faults_amended Int Int).2.2.2.2.1 (.error (.err (.leaf 3 "x"))) (.leaf 3 "x")
      rfl (by decide),
   (@C4_faults_amended Int Int).2.2.2.2.2.1 (option.Val 1)
      (.error (.err util.ErrMust)) util.ErrMust rfl (by decide),
   (@C4_faults_amended Int Int).2.2.2.2.2.2.1 (option.Val 1)
      (.error (.err (.leaf 3 "x"))) (.leaf 3 "x") rfl (by decide),
   (@C4_faults_amended Int Int).2.2.2.2.2.2.2.1 1
      (fun _ => .error (.err util.ErrMust)) util.ErrMust rfl (by decide),
   (@C4_faults_amended Int Int).2.2.2.2.2.2.2.2.1 1
      (fun _ => .error (.err util.ErrMust)) util.ErrMust rfl (by decide),
   (@C4_faults_amended Int Int).2.2.2.2.2.2.2.2.2.1 1
      (fun _ => .error (.err util.ErrMust)) util.ErrMust rfl (by decide),
   (@C4_faults_amended Int Int).2.2.2.2.2.2.2.2.2.2 1
      (fun _ => .error (.err (.leaf 3 "x"))) (.leaf 3 "x") rfl
      (by decide)⟩

/-- The stored cause is non-nil exactly when `IsErr` reports true; the
tag queries read the error slot, so this holds for every representable
Result value. -/
theorem result_err_iff_isErr {T : Type} (r : result.Result T) :
    r.err ≠ none ↔ r.IsErr = true := by
  obtain ⟨v, e⟩ := r
  cases e <;> simp [result.Result.IsErr, result.Result.IsOk]

/-- C5: `Err(nil)` faults at construction time, and every Result
produced by the public constructors (`Ok`, `Err`, `From`, `FromOption`,
`FromFunc`) and by the combinators satisfies the invariant that the
error cause is non-nil exactly when `IsErr()` is true. -/
theorem C5_err_invariant {T U : Type} :
    ((result.Err none : Except PanicVal (result.Result T)) =
      .error (.str "Err() called with nil error")) ∧
    (∀ v : T, ((result.Ok v).err ≠ none ↔ (result.Ok v).IsErr = true)) ∧
    (∀ (e : GoError) (r : result.Result T), result.Err (some e) = .ok r →
      (r.err ≠ none ↔ r.IsErr = true)) ∧
    (∀ (v : T) (ep : GoPtr GoError) (r : result.Result T),
      result.From v ep = .ok r → (r.err ≠ none ↔ r.IsErr = true)) ∧
    (∀ (o : option.Option T) (ep : GoPtr GoError) (r : result.Result T),
      result.FromOption o ep = .ok r → (r.err ≠ none ↔ r.IsErr = true)) ∧
    (∀ (f : Except PanicVal T) (r : result.Result T),
      result.FromFunc f = .ok r → (r.err ≠ none ↔ r.IsErr = true)) ∧
    (∀ (r0 : result.Result T) (f : T → Except PanicVal Unit)
      (r : result.Result T), r0.Try f = .ok r →
      (r.err ≠ none ↔ r.IsErr = true)) ∧
    (∀ (r0 : result.Result T) (f : GoPtr GoError → Except PanicVal Unit)
      (r : result.Result T), r0.Catch f = .ok r →
      (r.err ≠ none ↔ r.IsErr = true)) ∧
    (∀ (r0 : result.Result T) (f : Except PanicVal Unit)
      (r : result.Result T), r0.Finally f = .ok r →
      (r.err ≠ none ↔ r.IsErr = true)) ∧
    (∀ (r0 : result.Result T)
      (f : GoPtr GoError → Except PanicVal (result.Result T))
      (r : result.Result T), r0.Else f = .ok r →
      (r.err ≠ none ↔ r.IsErr = true)) ∧
    (∀ (r0 : result.Result T) (f : GoPtr GoError → Except PanicVal T)
      (r : result.Result T), r0.ElseMap f = .ok r →
      (r.err ≠ none ↔ r.IsErr = true)) ∧
    (∀ (r0 : result.Result T) (f : T → Except PanicVal (result.Result U))
      (r : result.Result U), result.Then r0 f = .ok r →
      (r.err ≠ none ↔ r.IsErr = true)) ∧
    (∀ (r0 : result.Result T) (f : T → Except PanicVal U)
      (r : result.Result U), result.Map r0 f = .ok r →
      (r.err ≠ none ↔ r.IsErr = true)) :=
  ⟨rfl,
   fun _ => result_err_iff_isErr _,
   fun _ r _ => result_err_iff_isErr r,
   fun _ _ r _ => result_err_iff_isErr r,
   fun _ _ r _ => result_err_iff_isErr r,
   fun _ r _ => result_err_iff_isErr r,
   fun _ _ r _ => result_err_iff_isErr r,
   fun _ _ r _ => result_err_iff_isErr r,
   fun _ _ r _ => result_err_iff_isErr r,
   fun _ _ r _ => result_err_iff_isErr r,
   fun _ _ r _ => result_err_iff_isErr r,
   fun _ _ r _ => result_err_iff_isErr r,
   fun _ _ r _ => result_err_iff_isErr r⟩

/-- Witness for C5: the invariant read off from concrete constructor
and combinator outputs. -/
theorem C5_err_invariant_witness :
    ((⟨none, some (.leaf 3 "x")⟩ : result.Result Int).err ≠ none ↔
      (⟨none, some (.leaf 3 "x")⟩ : result.Result Int).IsErr = true) ∧
    ((result.Ok (1 : Int)).err ≠ none ↔
      (result.Ok (1 : Int)).IsErr = true) :=
  ⟨(@C5_err_invariant Int Int).2.2.1 (.leaf 3 "x") ⟨none, some (.leaf 3 "x")⟩
      rfl,
   (@C5_err_invariant Int Int).2.2.2.2.2.2.1 (result.Ok 1)
      (fun _ => .ok ()) (result.Ok 1) rfl⟩

/-- C6: converting a Result to the optional value channel and back with
a supplied error reproduces an Ok result exactly; for an Err result the
round trip yields Err of the supplied error (the original cause is lost
by design). -/
theorem C6_round_trip {T : Type} :
    (∀ (v : T) (e : GoError),
      ((result.Ok v).Val >>= fun o => result.FromOption o (some e)) =
        .ok (result.Ok v)) ∧
    (∀ (r : result.Result T) (e0 e : GoError), r.err = some e0 →
      (r.Val >>= fun o => result.FromOption o (some e)) =
        .ok ⟨none, some e⟩) ∧
    (∀ (e0 e : GoError), e ≠ e0 →
      (⟨none, some e⟩ : result.Result T).err ≠ some e0) := by
  refine ⟨fun v e => rfl, ?_, ?_⟩
  · intro r e0 e hre
    simp [result.Result.Val, result.Result.IsOk, hre, result.FromOption,
      option.Nul, option.Option.IsVal, result.Err, exceptBind_ok]
  · intro e0 e hne
    simp [hne]

/-- Witness for C6: the lossy branch at a concrete Err result with a
distinct supplied error. -/
theorem C6_round_trip_witness :
    (((⟨none, some (.leaf 3 "e0")⟩ : result.Result Int).Val >>=
      fun o => result.FromOption o (some (.leaf 4 "e"))) =
      .ok ⟨none, some (.leaf 4 "e")⟩) ∧
    ((⟨none, some (.leaf 4 "e")⟩ : result.Result Int).err ≠
      some (.leaf 3 "e0")) :=
  ⟨C6_round_trip.2.1 ⟨none, some (.leaf 3 "e0")⟩ (.leaf 3 "e0")
      (.leaf 4 "e") rfl,
   C6_round_trip.2.2 (.leaf 3 "e0") (.leaf 4 "e") (by simp)⟩

/-- C8: `Map` over an absent option or an Err result never invokes its
function (the output is the same for any two functions) and yields
Absent, respectively Err with the same cause, at the new element type;
the same holds for `Then`, `MapOr` and `MapOrFunc` over an absent
option. -/
theorem C8_map_absent {T U : Type} :
    (∀ (o : option.Option T) (f g : T → Except PanicVal U),
      o.IsNul = true →
      option.Map o f = .ok option.Nul ∧ option.Map o f = option.Map o g) ∧
    (∀ (r : result.Result T) (e : GoError) (f g : T → Except PanicVal U),
      r.err = some e →
      result.Map r f = .ok ⟨none, some e⟩ ∧
      result.Map r f = result.Map r g) ∧
    (∀ (o : option.Option T)
      (f g : T → Except PanicVal (option.Option U)), o.IsNul = true →
      option.Then o f = .ok option.Nul ∧
      option.Then o f = option.Then o g) ∧
    (∀ (o : option.Option T) (f g : T → Except PanicVal U) (v : U),
      o.IsNul = true →
      option.MapOr o f v = .ok v ∧
      option.MapOr o f v = option.MapOr o g v) ∧
    (∀ (o : option.Option T) (f g : T → Except PanicVal U)
      (d : Except PanicVal U), o.IsNul = true →
      option.MapOrFunc o f d = d ∧
      option.MapOrFunc o f d = option.MapOrFunc o g d) := by
  refine ⟨?_, ?_, ?_, ?_, ?_⟩
  · intro o f g h
    simp [option.Map, h]
  · intro r e f g hre
    have hie : r.IsErr = true := by
      simp [result.Result.IsErr, result.Result.IsOk, hre]
    simp [result.Map, hie, hre, result.Err]
  · intro o f g h
    simp [option.Then, h]
  · intro o f g v h
    simp [option.MapOr, h]
  · intro o f g d h
    simp [option.MapOrFunc, h]

/-- Witness for C8: the lifts evaluated on a concrete absent option and
a concrete Err result, with two different functions. -/
theorem C8_map_absent_witness :
    (option.Map (option.Nul : option.Option Int)
      (fun v => (.ok v : Except PanicVal Int)) = .ok option.Nul) ∧
    (result.Map (⟨none, some (.leaf 3 "x")⟩ : result.Result Int)
      (fun v => (.ok v : Except PanicVal Int)) =
      .ok ⟨none, some (.leaf 3 "x")⟩) ∧
    (option.Then (option.Nul : option.Option Int)
      (fun v => (.ok (option.Val v) :
        Except PanicVal (option.Option Int))) = .ok option.Nul) ∧
    (option.MapOr (option.Nul : option.Option Int)
      (fun v => (.ok v : Except PanicVal Int)) 7 = .ok 7) ∧
    (option.MapOrFunc (option.Nul : option.Option Int)
      (fun v => (.ok v : Except PanicVal Int)) (.ok 9) = .ok 9) :=
  ⟨((@C8_map_absent Int Int).1 option.Nul (fun v => .ok v)
      (fun v => .ok v) rfl).1,
   ((@C8_map_absent Int Int).2.1 ⟨none, some (.leaf 3 "x")⟩ (.leaf 3 "x")
      (fun v => .ok v) (fun v => .ok v) rfl).1,
   ((@C8_map_absent Int Int).2.2.1 option.Nul (fun v => .ok (option.Val v))
      (fun v => .ok (option.Val v)) rfl).1,
   ((@C8_map_absent Int Int).2.2.2.1 option.Nul (fun v => .ok v)
      (fun v => .ok v) 7 rfl).1,
   ((@C8_map_absent Int Int).2.2.2.2 option.Nul (fun v => .ok v)
      (fun v => .ok v) (.ok 9) rfl).1⟩

/-- C9 counterexample: for an interface element type the Present
rendering shows the payload's dynamic type, not the element type's name.
An option of Go type `interface \x7b\x7d` holding a string renders as
`Some[string](x)`, while the element type's name is `interface \x7b\x7d`. -/
theorem C9_counterexample :
    option.Option.StringRepr (option.Val (GoAny.str "x")) =
      .ok "Some[string](x)" ∧
    tnameOf GoAny = "interface \x7b\x7d" ∧
    "Some[string](x)" ≠ "Some[" ++ tnameOf GoAny ++ "](x)" := by
  refine ⟨rfl, rfl, ?_⟩
  decide

/-- C9 (amended): a Present option renders as `Some[<dyn>](<v>)` and an
Ok result as `Ok[<dyn>](<v>)` where `<dyn>` is the payload's dynamic
type (`%T`), while an Absent option renders as `None[<type>]()` and an
Err result as `Err[<type>](<cause>)` where `<type>` is the element
type's name and `<cause>` is the cause's own message; dynamic and
element type coincide for non-interface element types. -/
theorem C9_string_amended {T : Type} [GoType T] :
    (∀ v : T, (option.Val v).StringRepr =
      .ok ("Some[" ++ GoType.dynName v ++ "](" ++ GoType.render v ++ ")")) ∧
    ((option.Nul : option.Option T).StringRepr =
      .ok ("None[" ++ tnameOf T ++ "]()")) ∧
    (∀ v : T, (result.Ok v).StringRepr =
      .ok ("Ok[" ++ GoType.dynName v ++ "](" ++ GoType.render v ++ ")")) ∧
    (∀ (e : GoError) (r : result.Result T), r.err = some e →
      r.StringRepr = .ok ("Err[" ++ tnameOf T ++ "](" ++ errMsg e ++ ")")) := by
  refine ⟨fun v => rfl, rfl, fun v => rfl, ?_⟩
  intro e r hre
  simp [result.Result.StringRepr, result.Result.IsOk, hre, errMsgPtr]

/-- Witness for C9 (amended): the Err rendering at a concrete cause. -/
theorem C9_string_amended_witness :
    (⟨none, some (.leaf 3 "bad")⟩ : result.Result Int).StringRepr =
      .ok ("Err[" ++ tnameOf Int ++ "](" ++ errMsg (.leaf 3 "bad") ++ ")") :=
  C9_string_amended.2.2.2 (.leaf 3 "bad") ⟨none, some (.leaf 3 "bad")⟩ rfl

/-- C10: the zero value of `Result[T]` reports Ok while its payload
pointer is nil, so `Get`, `GetOr`, `GetOrZero` and `String` fault with a
nil-pointer dereference; the payload-defined-iff-Ok representation holds
for constructor outputs but not for the zero value. -/
theorem C10_zero_value {T : Type} [GoType T] [GoZero T] :
    (result.zeroValue : result.Result T).IsOk = true ∧
    (result.zeroValue : result.Result T).val = none ∧
    ¬ ((result.zeroValue : result.Result T).val.isSome =
        (result.zeroValue : result.Result T).IsOk) ∧
    (result.zeroValue : result.Result T).Get = .error nilDeref ∧
    (∀ v : T,
      (result.zeroValue : result.Result T).GetOr v = .error nilDeref) ∧
    (result.zeroValue : result.Result T).GetOrZero = .error nilDeref ∧
    (result.zeroValue : result.Result T).StringRepr = .error nilDeref ∧
    (∀ v : T, (result.Ok v).val.isSome = (result.Ok v).IsOk) ∧
    (∀ (e : GoError) (r : result.Result T),
      result.Err (some e) = .ok r → r.val.isSome = r.IsOk) := by
  refine ⟨rfl, rfl, by simp [result.zeroValue, result.Result.IsOk], rfl,
    fun v => rfl, rfl, rfl, fun v => rfl, ?_⟩
  intro e r h
  simp only [result.Err, Except.ok.injEq] at h
  subst h
  rfl

/-- Witness for C10: the constructor-side representation invariant at a
concrete Err result. -/
theorem C10_zero_value_witness :
    (⟨none, some (GoError.leaf 3 "x")⟩ : result.Result Int).val.isSome =
      (⟨none, some (GoError.leaf 3 "x")⟩ : result.Result Int).IsOk :=
  C10_zero_value.2.2.2.2.2.2.2.2 (GoError.leaf 3 "x")
    ⟨none, some (GoError.leaf 3 "x")⟩ rfl
